import Mathlib

/-!
Shallow embedding of the two decoding pipelines of this repository:
`read_and_store.py` (the flow/velocity line-record assembler) and
`read_and_store_temp.py` (the temperature frame synchronizer).

Machine bytes are modelled as `Nat`, Python floats as `ℚ` (every quantity
involved is a small decimal fraction, for which Python's binary doubles
compare exactly in all range checks and equalities used here), and text
as `List Char`.  Side effects (console prints, Supabase inserts, serial
reads) are modelled by the values that flow through them.
-/

/-- ASCII digit test: the regexes' `\d` restricted to ASCII, which is all
the serial stream can carry (`run` decodes the line as ASCII). -/
def isDigitCh (c : Char) : Bool := 48 ≤ c.toNat && c.toNat ≤ 57

/-- Python `\s` and `str.strip` whitespace, ASCII subset. -/
def isSpaceCh (c : Char) : Bool :=
  c == ' ' || c == '\t' || c == '\n' || c == '\r' || c == '\x0b' || c == '\x0c'

/-- Python `line.strip()`: drop leading and trailing whitespace. -/
def pyStrip (cs : List Char) : List Char :=
  ((cs.dropWhile isSpaceCh).reverse.dropWhile isSpaceCh).reverse

/-- Shape of the anchored timestamp regex
`(\d{2}-\d{2}-\d{2} \d{2}:\d{2}:\d{2})` on a 17-character window. -/
def isTsShape (s : List Char) : Bool :=
  s.length == 17 &&
  isDigitCh (s.getD 0 ' ') && isDigitCh (s.getD 1 ' ') && s.getD 2 ' ' == '-' &&
  isDigitCh (s.getD 3 ' ') && isDigitCh (s.getD 4 ' ') && s.getD 5 ' ' == '-' &&
  isDigitCh (s.getD 6 ' ') && isDigitCh (s.getD 7 ' ') && s.getD 8 ' ' == ' ' &&
  isDigitCh (s.getD 9 ' ') && isDigitCh (s.getD 10 ' ') && s.getD 11 ' ' == ':' &&
  isDigitCh (s.getD 12 ' ') && isDigitCh (s.getD 13 ' ') && s.getD 14 ' ' == ':' &&
  isDigitCh (s.getD 15 ' ') && isDigitCh (s.getD 16 ' ')

/-- `re.match` of the timestamp pattern (read_and_store.py line 59): the
pattern is anchored at the start, matches exactly 17 characters, and any
suffix may follow; returns the captured group. -/
def matchTimestamp (cs : List Char) : Option (List Char) :=
  if isTsShape (cs.take 17) then some (cs.take 17) else none

/-- Maximal nonempty run of characters satisfying `p` (the regexes' `X+`);
fails when the run is empty.  The character classes on the two sides of
every `+` in the source regexes are disjoint, so maximal munch coincides
with the regex engine's backtracking semantics. -/
def munch1 (p : Char → Bool) (cs : List Char) : Option (List Char × List Char) :=
  match cs.takeWhile p with
  | [] => none
  | g => some (g, cs.dropWhile p)

/-- Characters of the numeric capture class `[\d.]`. -/
def isNumCh (c : Char) : Bool := isDigitCh c || c == '.'

/-- Whether `u` is a prefix of `r`, by character comparison. -/
def leadsWith : List Char → List Char → Bool
  | _, [] => true
  | [], _ => false
  | a :: as, b :: bs => a == b && leadsWith as bs

/-- Tail of the flow/velocity regexes after the keyword:
`\s+([\d.]+)\s+<unit>`, anything may follow (as with `re.match`).
`leadsWith r3 unit` note: arguments are (remaining input, unit text). -/
def numberThenUnit (rest unit : List Char) : Option (List Char) :=
  match munch1 isSpaceCh rest with
  | none => none
  | some (_, r1) =>
    match munch1 isNumCh r1 with
    | none => none
    | some (g, r2) =>
      match munch1 isSpaceCh r2 with
      | none => none
      | some (_, r3) => if leadsWith r3 unit then some g else none

/-- `re.match(r'Flow\s+([\d.]+)\s+l/s', line)` (line 67), returning the
captured numeric text. -/
def matchFlow (cs : List Char) : Option (List Char) :=
  match cs with
  | 'F' :: 'l' :: 'o' :: 'w' :: rest => numberThenUnit rest ['l', '/', 's']
  | _ => none

/-- `re.match(r'Vel:\s+([\d.]+)\s+m/s', line)` (line 73), returning the
captured numeric text. -/
def matchVel (cs : List Char) : Option (List Char) :=
  match cs with
  | 'V' :: 'e' :: 'l' :: ':' :: rest => numberThenUnit rest ['m', '/', 's']
  | _ => none

/-- Value of a decimal digit string. -/
def digitsVal (ds : List Char) : Nat :=
  ds.foldl (fun a c => a * 10 + (c.toNat - 48)) 0

/-- Python `float(s)` on a nonempty string over `[0-9.]`: defined exactly
when the string has at most one dot and at least one digit (`float('.')`
and `float('1.2.3')` raise `ValueError`); the value is represented as an
exact rational. -/
def pyFloat (g : List Char) : Option ℚ :=
  if g.count '.' ≤ 1 ∧ g.any isDigitCh = true then
    some ((digitsVal (g.takeWhile (fun c => !(c == '.'))) : ℚ) +
      (digitsVal ((g.dropWhile (fun c => !(c == '.'))).drop 1) : ℚ) /
        10 ^ ((g.dropWhile (fun c => !(c == '.'))).drop 1).length)
  else none

/-- The `current_record` dict
`{'timestamp': None, 'flow': None, 'velocity': None}` (line 17).  The
timestamp field holds the matched timestamp text itself:
`strptime`/`localize`/`isoformat` are injective formatting steps whose
output no claim inspects, so they are not expanded (field-range
validation inside `strptime` is likewise not modelled; no claim depends
on it). -/
structure CurrentRecord where
  timestamp : Option (List Char)
  flow : Option ℚ
  velocity : Option ℚ
deriving DecidableEq

/-- The reset state `{'timestamp': None, 'flow': None, 'velocity': None}`. -/
def emptyRecord : CurrentRecord := ⟨none, none, none⟩

/-- `parse_data_line` (read_and_store.py lines 54-78): strip the line,
try the three anchored patterns in priority order, store the parsed value
into the matching field, and return the is-velocity-line flag.
`Except.error` models a Python `ValueError` escaping `float`; no caller
in the source catches it. -/
def parse_data_line (line : List Char) (rec : CurrentRecord) :
    Except String (CurrentRecord × Bool) :=
  match matchTimestamp (pyStrip line) with
  | some ts => .ok ({ rec with timestamp := some ts }, false)
  | none =>
    match matchFlow (pyStrip line) with
    | some g =>
      match pyFloat g with
      | some v => .ok ({ rec with flow := some v }, false)
      | none => .error "ValueError"
    | none =>
      match matchVel (pyStrip line) with
      | some g =>
        match pyFloat g with
        | some v => .ok ({ rec with velocity := some v }, true)
        | none => .error "ValueError"
      | none => .ok (rec, false)

/-- Python truthiness of the timestamp value as seen by
`all(self.current_record.values())` (line 85): `None` and the empty
string are falsy. -/
def truthyTs : Option (List Char) → Bool
  | none => false
  | some s => !s.isEmpty

/-- Python truthiness of a float field: `None` and `0.0` are falsy. -/
def truthyQ : Option ℚ → Bool
  | none => false
  | some q => decide (q ≠ 0)

/-- `all(self.current_record.values())` over the dict's three values. -/
def recordComplete (r : CurrentRecord) : Bool :=
  truthyTs r.timestamp && truthyQ r.flow && truthyQ r.velocity

/-- Row inserted into the `flow_data` table (lines 95-99). -/
structure StoredRow where
  timestamp : String
  flow : Option ℚ
  velocity : Option ℚ
deriving DecidableEq

/-- `store_record` (lines 89-108): the record's timestamp is overwritten
with the capture-time UTC instant `now` before insertion; Supabase errors
are caught inside this method and never propagate to the caller. -/
def store_record (now : String) (r : CurrentRecord) : StoredRow :=
  { timestamp := now, flow := r.flow, velocity := r.velocity }

/-- `process_buffer` (lines 80-87) run over the buffered lines: pop each
line, parse it into the accumulator, and when a velocity line completes a
record whose three values are all truthy, store the record and reset the
accumulator to empty.  `now` stands for the wall clock at the store
calls; the emitted rows are returned in order together with the final
accumulator state. -/
def process_buffer (now : String) :
    List (List Char) → CurrentRecord → Except String (List StoredRow × CurrentRecord)
  | [], rec => .ok ([], rec)
  | line :: rest, rec =>
    match parse_data_line line rec with
    | .error e => .error e
    | .ok (rec', isVel) =>
      if isVel && recordComplete rec' then
        match process_buffer now rest emptyRecord with
        | .error e => .error e
        | .ok (rows, fin) => .ok (store_record now rec' :: rows, fin)
      else
        process_buffer now rest rec'

/-- `frame[2] << 8 | frame[3]` scaled by `/ 10.0`: the big-endian decode
of read_and_store_temp.py lines 22-23 and 119-120. -/
def decode16 (hi lo : Nat) : ℚ := (((hi <<< 8) ||| lo : Nat) : ℚ) / 10

/-- `parse_frame` (read_and_store_temp.py lines 15-24): prints the decoded
pair for a window; modelled as returning the pair it reports, `none`
exactly when the source rejects the window (length not 8, or first byte
not `0x02`).  Note the source checks no end marker here. -/
def parse_frame (frame : List Nat) : Option (ℚ × ℚ) :=
  if frame.length ≠ 8 then none
  else if frame.getD 0 0 ≠ 2 then none
  else some (decode16 (frame.getD 2 0) (frame.getD 3 0),
    decode16 (frame.getD 4 0) (frame.getD 5 0))

/-- Candidate windows of the scan
`for i in range(len(buffer) - 7): candidate = buffer[i:i+8]` filtered by
`candidate[0] == 0x02` (lines 116-118), in increasing start order. -/
def startWindows : List Nat → List (List Nat)
  | [] => []
  | x :: rest =>
    if 8 ≤ (x :: rest).length then
      (if x = 2 then [(x :: rest).take 8] else []) ++ startWindows rest
    else []

/-- The upload-selection loop (lines 113-125): decode `t1`/`t2` from every
candidate whose first byte is `0x02` and keep the pair of the second such
candidate (`found == 2`), `none` when fewer than two exist. -/
def selectSecond (b : List Nat) : Option (ℚ × ℚ) :=
  match startWindows b with
  | _ :: w :: _ =>
    some (decode16 (w.getD 2 0) (w.getD 3 0), decode16 (w.getD 4 0) (w.getD 5 0))
  | _ => none

/-- Row inserted into the `temperature_data` table (lines 129-133). -/
structure TempRow where
  timestamp : String
  t1 : ℚ
  t2 : ℚ
deriving DecidableEq

/-- Range gate and upload attempt (lines 126-145):
`10 <= t1_to_upload <= 100 and 10 <= t2_to_upload <= 100`; an
out-of-range pair is dropped whole (only a skip message is printed),
otherwise the row is handed to the sink with the capture time `now`. -/
def cycleUpload (now : String) (b : List Nat) : Option TempRow :=
  match selectSecond b with
  | none => none
  | some (t1, t2) =>
    if 10 ≤ t1 ∧ t1 ≤ 100 ∧ 10 ≤ t2 ∧ t2 ≤ 100 then some ⟨now, t1, t2⟩ else none

/-- One cycle's buffer bookkeeping (lines 102-148): when a chunk arrives
it is appended (`buffer += chunk`), the buffer is scanned (scanning does
not mutate it), and `buffer = buffer[-32:]` keeps only the last 32 bytes
whenever the length exceeds 32; when no chunk arrives the buffer is left
untouched. -/
def cycleBuffer (buf chunk : List Nat) : List Nat :=
  if chunk.isEmpty then buf
  else
    let b := buf ++ chunk
    if 32 < b.length then b.drop (b.length - 32) else b

/-- Spec's notion of a valid frame, used by claims C1 and C3: an 8-byte
window with `0x02` at byte 0 and `0x03` at byte 7.  This definition
follows the spec's words, for comparison against the code's behaviour. -/
def specValidFrame (w : List Nat) : Bool :=
  w.length == 8 && w.getD 0 0 == 2 && w.getD 7 0 == 3

/-- All 8-byte windows of a buffer (every start index up to length − 8). -/
def allWindows8 : List Nat → List (List Nat)
  | [] => []
  | x :: rest =>
    if 8 ≤ (x :: rest).length then (x :: rest).take 8 :: allWindows8 rest else []

/-- Number of spec-valid frames present in a buffer. -/
def specValidFrameCount (b : List Nat) : Nat :=
  (allWindows8 b).countP specValidFrame

/-! Helper lemmas shared by the claim theorems. -/

theorem matchFlow_shape {cs g : List Char} (h : matchFlow cs = some g) :
    ∃ r, cs = 'F' :: 'l' :: 'o' :: 'w' :: r := by
  unfold matchFlow at h
  split at h
  · exact ⟨_, rfl⟩
  · simp at h

theorem matchVel_shape {cs g : List Char} (h : matchVel cs = some g) :
    ∃ r, cs = 'V' :: 'e' :: 'l' :: ':' :: r := by
  unfold matchVel at h
  split at h
  · exact ⟨_, rfl⟩
  · simp at h

theorem matchTimestamp_of_matchFlow {cs g : List Char} (h : matchFlow cs = some g) :
    matchTimestamp cs = none := by
  obtain ⟨r, rfl⟩ := matchFlow_shape h
  simp [matchTimestamp, isTsShape, isDigitCh]

theorem matchTimestamp_of_matchVel {cs g : List Char} (h : matchVel cs = some g) :
    matchTimestamp cs = none := by
  obtain ⟨r, rfl⟩ := matchVel_shape h
  simp [matchTimestamp, isTsShape, isDigitCh]

theorem matchFlow_of_matchVel {cs g : List Char} (h : matchVel cs = some g) :
    matchFlow cs = none := by
  obtain ⟨r, rfl⟩ := matchVel_shape h
  rfl

theorem matchTimestamp_some_ne_nil {cs s : List Char} (h : matchTimestamp cs = some s) :
    s ≠ [] := by
  unfold matchTimestamp at h
  split_ifs at h with hsh
  · injection h with h'
    subst h'
    intro hnil
    rw [hnil] at hsh
    simp [isTsShape] at hsh

theorem parse_line_ts (line : List Char) (a : Option (List Char)) (b c : Option ℚ)
    (s : List Char) (h : matchTimestamp (pyStrip line) = some s) :
    parse_data_line line ⟨a, b, c⟩ = .ok (⟨some s, b, c⟩, false) := by
  unfold parse_data_line
  rw [h]

theorem parse_line_flow (line : List Char) (a : Option (List Char)) (b c : Option ℚ)
    {g : List Char} {q : ℚ} (h : matchFlow (pyStrip line) = some g)
    (hq : pyFloat g = some q) :
    parse_data_line line ⟨a, b, c⟩ = .ok (⟨a, some q, c⟩, false) := by
  unfold parse_data_line
  rw [matchTimestamp_of_matchFlow h, h]
  dsimp only
  rw [hq]

theorem parse_line_vel (line : List Char) (a : Option (List Char)) (b c : Option ℚ)
    {g : List Char} {q : ℚ} (h : matchVel (pyStrip line) = some g)
    (hq : pyFloat g = some q) :
    parse_data_line line ⟨a, b, c⟩ = .ok (⟨a, b, some q⟩, true) := by
  unfold parse_data_line
  rw [matchTimestamp_of_matchVel h, matchFlow_of_matchVel h, h]
  dsimp only
  rw [hq]

theorem shift_or_byte (hi lo : Nat) (hlo : lo < 256) :
    (hi <<< 8) ||| lo = hi * 256 + lo := by
  have hb : lo < 2 ^ 8 := by norm_num [hlo]
  have h := Nat.mul_add_lt_is_or hb hi
  rw [Nat.shiftLeft_eq]
  calc hi * 2 ^ 8 ||| lo = 2 ^ 8 * hi ||| lo := by rw [Nat.mul_comm]
    _ = 2 ^ 8 * hi + lo := h.symm
    _ = hi * 256 + lo := by rw [Nat.mul_comm]

theorem decode16_eq (hi lo : Nat) (hlo : lo < 256) :
    decode16 hi lo = ((hi * 256 + lo : ℕ) : ℚ) / 10 := by
  unfold decode16
  rw [shift_or_byte hi lo hlo]

/-! Evaluation lemmas for concrete inputs, and stepping lemmas for
`process_buffer`. -/

theorem decode16_1_100 : decode16 1 100 = 178 / 5 := by
  rw [decode16_eq 1 100 (by norm_num)]
  norm_num

theorem pyFloat_000 : pyFloat ['0', '.', '0', '0'] = some 0 := by
  unfold pyFloat
  rw [if_pos (by decide),
    show (['0', '.', '0', '0'].takeWhile fun c => !(c == '.')) = ['0'] from rfl,
    show ((['0', '.', '0', '0'].dropWhile fun c => !(c == '.')).drop 1)
      = ['0', '0'] from rfl,
    show digitsVal ['0'] = 0 from rfl, show digitsVal ['0', '0'] = 0 from rfl,
    show (['0', '0'] : List Char).length = 2 from rfl]
  norm_num

theorem pyFloat_150 : pyFloat ['1', '.', '5', '0'] = some (3 / 2) := by
  unfold pyFloat
  rw [if_pos (by decide),
    show (['1', '.', '5', '0'].takeWhile fun c => !(c == '.')) = ['1'] from rfl,
    show ((['1', '.', '5', '0'].dropWhile fun c => !(c == '.')).drop 1)
      = ['5', '0'] from rfl,
    show digitsVal ['1'] = 1 from rfl, show digitsVal ['5', '0'] = 50 from rfl,
    show (['5', '0'] : List Char).length = 2 from rfl]
  norm_num

theorem pyFloat_075 : pyFloat ['0', '.', '7', '5'] = some (3 / 4) := by
  unfold pyFloat
  rw [if_pos (by decide),
    show (['0', '.', '7', '5'].takeWhile fun c => !(c == '.')) = ['0'] from rfl,
    show ((['0', '.', '7', '5'].dropWhile fun c => !(c == '.')).drop 1)
      = ['7', '5'] from rfl,
    show digitsVal ['0'] = 0 from rfl, show digitsVal ['7', '5'] = 75 from rfl,
    show (['7', '5'] : List Char).length = 2 from rfl]
  norm_num

theorem process_buffer_cons (now : String) (line : List Char)
    (rest : List (List Char)) (rec : CurrentRecord) :
    process_buffer now (line :: rest) rec =
      match parse_data_line line rec with
      | .error e => .error e
      | .ok (rec', isVel) =>
        if isVel && recordComplete rec' then
          match process_buffer now rest emptyRecord with
          | .error e => .error e
          | .ok (rows, fin) => .ok (store_record now rec' :: rows, fin)
        else process_buffer now rest rec' := rfl

theorem process_buffer_cons_skip {line : List Char} {rec rec' : CurrentRecord}
    {isVel : Bool} (rest : List (List Char)) (now : String)
    (h : parse_data_line line rec = .ok (rec', isVel))
    (hc : (isVel && recordComplete rec') = false) :
    process_buffer now (line :: rest) rec = process_buffer now rest rec' := by
  rw [process_buffer_cons, h]
  dsimp only
  simp [hc]

theorem process_buffer_last_emit {line : List Char} {rec rec' : CurrentRecord}
    (now : String) (h : parse_data_line line rec = .ok (rec', true))
    (hc : recordComplete rec' = true) :
    process_buffer now [line] rec = .ok ([store_record now rec'], emptyRecord) := by
  rw [process_buffer_cons, h]
  dsimp only
  simp [hc]
  rfl

theorem process_buffer_nil (now : String) (rec : CurrentRecord) :
    process_buffer now [] rec = .ok ([], rec) := rfl

/-! Claim theorems. -/

/-- C2 counterexample: `bigEndian16(0x01, 0x64) / 10.0` is `35.6`, not the
`36.4` the claim states (`0x0164 = 356` and `356 / 10 = 35.6`). -/
theorem c2_claim_false : decode16 1 100 ≠ 182 / 5 := by
  rw [decode16_1_100]
  norm_num

/-- C2 (amended): decoding divides the big-endian 16-bit magnitude by 10,
`bigEndian16(0x01, 0x64) / 10.0 = 35.6`, and on any window that
`parse_frame` accepts `t1 = (frame[2]*256 + frame[3]) / 10.0` and
`t2 = (frame[4]*256 + frame[5]) / 10.0` (byte values below 256). -/
theorem c2_decode_divides_by_ten (hi lo : Nat) (hlo : lo < 256) :
    decode16 hi lo = ((hi * 256 + lo : ℕ) : ℚ) / 10 ∧
    decode16 1 100 = 178 / 5 ∧
    (∀ frame : List Nat, frame.length = 8 → frame.getD 0 0 = 2 →
      frame.getD 3 0 < 256 → frame.getD 5 0 < 256 →
      parse_frame frame =
        some (((frame.getD 2 0 * 256 + frame.getD 3 0 : ℕ) : ℚ) / 10,
          ((frame.getD 4 0 * 256 + frame.getD 5 0 : ℕ) : ℚ) / 10)) := by
  refine ⟨decode16_eq hi lo hlo, decode16_1_100, fun f h8 h0 h3 h5 => ?_⟩
  unfold parse_frame
  rw [if_neg (by rw [h8]; simp), if_neg (by rw [h0]; simp),
    decode16_eq _ _ h3, decode16_eq _ _ h5]

/-- C2 witness: the general decode formula evaluated on the concrete
frame `02 09 03 20 01 2C 07 03`. -/
theorem c2_witness :
    decode16 3 32 = ((3 * 256 + 32 : ℕ) : ℚ) / 10 ∧
    parse_frame [2, 9, 3, 32, 1, 44, 7, 3] =
      some (((3 * 256 + 32 : ℕ) : ℚ) / 10, ((1 * 256 + 44 : ℕ) : ℚ) / 10) :=
  ⟨(c2_decode_divides_by_ten 3 32 (by norm_num)).1,
   (c2_decode_divides_by_ten 3 32 (by norm_num)).2.2 [2, 9, 3, 32, 1, 44, 7, 3]
     rfl rfl (by norm_num) (by norm_num)⟩

/-- C3 counterexample: the window `02 00 01 64 01 64 00 00` has the start
marker but not the end marker (byte 7 is `0x00`, not `0x03`), so it is not
a valid frame, yet `parse_frame` decodes temperature values from it. -/
theorem c3_claim_false :
    specValidFrame [2, 0, 1, 100, 1, 100, 0, 0] = false ∧
    parse_frame [2, 0, 1, 100, 1, 100, 0, 0] = some (178 / 5, 178 / 5) := by
  refine ⟨rfl, ?_⟩
  unfold parse_frame
  rw [if_neg (by decide), if_neg (by decide)]
  rw [show ([2, 0, 1, 100, 1, 100, 0, 0] : List ℕ).getD 2 0 = 1 from rfl,
    show ([2, 0, 1, 100, 1, 100, 0, 0] : List ℕ).getD 3 0 = 100 from rfl,
    show ([2, 0, 1, 100, 1, 100, 0, 0] : List ℕ).getD 4 0 = 1 from rfl,
    show ([2, 0, 1, 100, 1, 100, 0, 0] : List ℕ).getD 5 0 = 100 from rfl,
    decode16_1_100]

/-- C3 (amended): `parse_frame` decodes temperature values from a window
exactly when the window has length 8 and its byte 0 equals `0x02`; the
end marker at byte 7 is never checked. -/
theorem c3_decode_condition (w : List Nat) :
    parse_frame w ≠ none ↔ (w.length = 8 ∧ w.getD 0 0 = 2) := by
  unfold parse_frame
  split_ifs with h1 h2 <;> simp_all

/-- C3 witness: a window with both markers is decoded. -/
theorem c3_witness : parse_frame [2, 0, 0, 0, 0, 0, 0, 3] ≠ none :=
  (c3_decode_condition [2, 0, 0, 0, 0, 0, 0, 3]).mpr ⟨rfl, rfl⟩

/-- C7: evaluating the assembler at the failing inputs.  The captured
numeric text `.` (resp. `1.2.3`) is not a parseable float, so `float`
raises `ValueError`; no caller catches it (`run` catches only
`KeyboardInterrupt`), so the error escapes `process_buffer` and aborts
processing — the claim that the assembler never crashes is violated by
the source. -/
theorem c7_malformed_float_crashes :
    parse_data_line ("Flow . l/s".toList) emptyRecord = .error "ValueError" ∧
    parse_data_line ("Vel: 1.2.3 m/s".toList) emptyRecord = .error "ValueError" ∧
    process_buffer "z" ["Flow . l/s".toList, "25-01-01 12:00:00".toList]
      emptyRecord = .error "ValueError" := by
  exact ⟨rfl, rfl, rfl⟩

/-- C9: the row handed to the sink carries the capture-time instant `now`,
independently of whatever device timestamp sits in the accumulator, while
a timestamp line does store the parsed device timestamp into the
accumulator (it is overwritten only at emission). -/
theorem c9_capture_time_stored (now : String) (r : CurrentRecord) :
    (store_record now r).timestamp = now ∧
    (∀ ts, store_record now { r with timestamp := ts } = store_record now r) ∧
    (∀ line s, matchTimestamp (pyStrip line) = some s →
      parse_data_line line r =
        .ok ({ r with timestamp := some s }, false)) := by
  refine ⟨rfl, fun ts => rfl, fun line s h => ?_⟩
  unfold parse_data_line
  rw [h]

/-- C9 witness: concrete instantiation on a parsed timestamp line. -/
theorem c9_witness :
    parse_data_line ("25-01-01 12:00:00".toList) emptyRecord =
      .ok ({ emptyRecord with timestamp := some ("25-01-01 12:00:00".toList) },
        false) :=
  (c9_capture_time_stored "n" emptyRecord).2.2 ("25-01-01 12:00:00".toList)
    ("25-01-01 12:00:00".toList) rfl

/-- C10: a stored `0.0` is falsy in `all(self.current_record.values())`,
so the completeness check fails whenever the flow or velocity field holds
`0.0`; in particular the sequence timestamp line, `Flow 0.00 l/s`,
velocity line emits nothing and leaves the accumulator un-reset with all
three fields structurally populated. -/
theorem c10_zero_value_blocks_emission :
    (∀ r : CurrentRecord, r.flow = some 0 ∨ r.velocity = some 0 →
      recordComplete r = false) ∧
    process_buffer "n"
        ["25-01-01 12:00:00".toList, "Flow 0.00 l/s".toList,
          "Vel: 1.50 m/s".toList] emptyRecord =
      .ok ([], ⟨some ("25-01-01 12:00:00".toList), some 0, some (3 / 2)⟩) := by
  have hz : truthyQ (some 0) = false := by simp [truthyQ]
  constructor
  · rintro ⟨ts, fl, vl⟩ (h | h) <;> dsimp only at h <;> subst h <;>
      simp [recordComplete, hz]
  · rw [show emptyRecord = (⟨none, none, none⟩ : CurrentRecord) from rfl,
      process_buffer_cons_skip _ "n"
        (parse_line_ts ("25-01-01 12:00:00".toList) none none none
          ("25-01-01 12:00:00".toList) rfl)
        (Bool.false_and _),
      process_buffer_cons_skip _ "n"
        (parse_line_flow ("Flow 0.00 l/s".toList)
          (some ("25-01-01 12:00:00".toList)) none none
          (rfl : matchFlow (pyStrip ("Flow 0.00 l/s".toList)) =
            some ['0', '.', '0', '0']) pyFloat_000)
        (Bool.false_and _),
      process_buffer_cons_skip _ "n"
        (parse_line_vel ("Vel: 1.50 m/s".toList)
          (some ("25-01-01 12:00:00".toList)) (some 0) none
          (rfl : matchVel (pyStrip ("Vel: 1.50 m/s".toList)) =
            some ['1', '.', '5', '0']) pyFloat_150)
        (by simp [recordComplete, hz]),
      process_buffer_nil]

/-- C10 witness: the completeness check rejects a record whose flow field
holds `0.0`. -/
theorem c10_witness : recordComplete ⟨some ['x'], some 0, some 1⟩ = false :=
  c10_zero_value_blocks_emission.1 ⟨some ['x'], some 0, some 1⟩ (Or.inl rfl)

/-- C8: the retained buffer never exceeds 32 bytes at the end of a cycle:
one cycle preserves the bound for any chunk size, and iterating cycles
from the initial empty buffer keeps the bound for every chunk sequence. -/
theorem c8_retention_cap :
    (∀ buf chunk : List Nat, buf.length ≤ 32 →
      (cycleBuffer buf chunk).length ≤ 32) ∧
    (∀ chunks : List (List Nat),
      (chunks.foldl cycleBuffer []).length ≤ 32) := by
  have h1 : ∀ buf chunk : List Nat, buf.length ≤ 32 →
      (cycleBuffer buf chunk).length ≤ 32 := by
    intro buf chunk h
    unfold cycleBuffer
    dsimp only
    split_ifs with he hl
    · exact h
    · simp only [List.length_drop]
      omega
    · omega
  refine ⟨h1, fun chunks => ?_⟩
  have key : ∀ (cs : List (List Nat)) (init : List Nat), init.length ≤ 32 →
      (cs.foldl cycleBuffer init).length ≤ 32 := by
    intro cs
    induction cs with
    | nil => intro init h; simpa using h
    | cons c rest ih => intro init h; exact ih _ (h1 _ _ h)
  exact key chunks [] (by simp)

/-- C8 witness: one concrete oversized burst ends within the cap. -/
theorem c8_witness : (cycleBuffer [] (List.range 100)).length ≤ 32 :=
  c8_retention_cap.1 [] (List.range 100) (by simp)

/-- C1 counterexample: a buffer holding two windows that start with `0x02`
but end with `0x00` (no end marker anywhere) contains zero valid frames,
yet the upload logic still selects a pair and uploads it (35.6 °C twice,
in range) — refuting both halves of the claim at once: the selected pair
does not come from a valid frame, and the upload happens with fewer than
two valid frames present. -/
theorem c1_claim_false :
    specValidFrameCount
        [2, 0, 1, 100, 1, 100, 0, 0, 2, 0, 1, 100, 1, 100, 0, 0] < 2 ∧
    cycleUpload "c" [2, 0, 1, 100, 1, 100, 0, 0, 2, 0, 1, 100, 1, 100, 0, 0] =
      some ⟨"c", 178 / 5, 178 / 5⟩ := by
  constructor
  · decide
  · unfold cycleUpload
    rw [show selectSecond
          [2, 0, 1, 100, 1, 100, 0, 0, 2, 0, 1, 100, 1, 100, 0, 0] =
        some (decode16 1 100, decode16 1 100) from rfl]
    dsimp only
    rw [decode16_1_100, if_pos (by norm_num)]

/-- C1 (amended): the upload logic selects the t1/t2 pair decoded from the
second 8-byte window whose first byte is `0x02` (the end marker is not
consulted); when fewer than two such windows exist, no upload occurs. -/
theorem c1_second_start_window (now : String) (b : List Nat) :
    ((startWindows b).length < 2 → cycleUpload now b = none) ∧
    (∀ w, (startWindows b).get? 1 = some w →
      selectSecond b =
        some (decode16 (w.getD 2 0) (w.getD 3 0),
          decode16 (w.getD 4 0) (w.getD 5 0))) := by
  have hsel : selectSecond b =
      match (startWindows b).get? 1 with
      | some w => some (decode16 (w.getD 2 0) (w.getD 3 0),
          decode16 (w.getD 4 0) (w.getD 5 0))
      | none => none := by
    unfold selectSecond
    cases hsw : startWindows b with
    | nil => rfl
    | cons w0 rest =>
      cases rest with
      | nil => rfl
      | cons w1 ws => rfl
  constructor
  · intro hlen
    have h1 : (startWindows b).get? 1 = none :=
      List.get?_eq_none.mpr (by omega)
    unfold cycleUpload
    rw [hsel, h1]
  · intro w hw
    rw [hsel, hw]

/-- C1 witness: a buffer with no `0x02`-starting window uploads nothing. -/
theorem c1_witness : cycleUpload "w" [5, 6, 7, 8, 9, 10, 11, 12] = none :=
  (c1_second_start_window "w" [5, 6, 7, 8, 9, 10, 11, 12]).1 (by decide)

/-- C6: once a pair has been selected for upload, the row is handed to
the sink exactly when both temperatures lie in the inclusive range
`[10, 100]`, and dropped whole otherwise. -/
theorem c6_range_gate (now : String) (b : List Nat) (t1 t2 : ℚ)
    (hsel : selectSecond b = some (t1, t2)) :
    (cycleUpload now b = some ⟨now, t1, t2⟩ ↔
      (10 ≤ t1 ∧ t1 ≤ 100 ∧ 10 ≤ t2 ∧ t2 ≤ 100)) ∧
    (¬(10 ≤ t1 ∧ t1 ≤ 100 ∧ 10 ≤ t2 ∧ t2 ≤ 100) →
      cycleUpload now b = none) := by
  unfold cycleUpload
  rw [hsel]
  dsimp only
  split_ifs with h
  · exact ⟨⟨fun _ => h, fun _ => rfl⟩, fun hn => absurd h hn⟩
  · exact ⟨⟨fun hc => hc.elim, fun hr => absurd hr h⟩,
      fun _ => rfl⟩

/-- C6 witness: the claim's concrete pairs — (105.3, 50.0) is rejected
entirely, (50.0, 99.9) is accepted. -/
theorem c6_witness :
    cycleUpload "w" [2, 0, 4, 29, 1, 244, 0, 0, 2, 0, 4, 29, 1, 244, 0, 0] =
      none ∧
    cycleUpload "w" [2, 0, 1, 244, 3, 231, 0, 0, 2, 0, 1, 244, 3, 231, 0, 0] =
      some ⟨"w", 50, 999 / 10⟩ := by
  have hr : selectSecond
      [2, 0, 4, 29, 1, 244, 0, 0, 2, 0, 4, 29, 1, 244, 0, 0] =
      some (1053 / 10, 50) := by
    rw [show selectSecond
          [2, 0, 4, 29, 1, 244, 0, 0, 2, 0, 4, 29, 1, 244, 0, 0] =
        some (decode16 4 29, decode16 1 244) from rfl,
      decode16_eq 4 29 (by norm_num), decode16_eq 1 244 (by norm_num)]
    norm_num
  have ha : selectSecond
      [2, 0, 1, 244, 3, 231, 0, 0, 2, 0, 1, 244, 3, 231, 0, 0] =
      some (50, 999 / 10) := by
    rw [show selectSecond
          [2, 0, 1, 244, 3, 231, 0, 0, 2, 0, 1, 244, 3, 231, 0, 0] =
        some (decode16 1 244, decode16 3 231) from rfl,
      decode16_eq 1 244 (by norm_num), decode16_eq 3 231 (by norm_num)]
    norm_num
  exact ⟨(c6_range_gate "w" _ (1053 / 10) 50 hr).2 (by norm_num),
    (c6_range_gate "w" _ 50 (999 / 10) ha).1.mpr (by norm_num)⟩

theorem pyFloat_00 : pyFloat ['0', '.', '0'] = some 0 := by
  unfold pyFloat
  rw [if_pos (by decide),
    show (['0', '.', '0'].takeWhile fun c => !(c == '.')) = ['0'] from rfl,
    show ((['0', '.', '0'].dropWhile fun c => !(c == '.')).drop 1)
      = ['0'] from rfl,
    show digitsVal ['0'] = 0 from rfl,
    show (['0'] : List Char).length = 1 from rfl]
  norm_num

/-- C4 counterexample: the in-order well-formed sequence timestamp line,
`Flow 0.0 l/s`, velocity line emits no record at all (`0.0` is falsy in
the completeness check) and the accumulator is not reset — refuting the
claim's "exactly one record is emitted" for every well-formed in-order
sequence. -/
theorem c4_claim_false :
    process_buffer "n"
        ["25-01-01 12:00:00".toList, "Flow 0.0 l/s".toList,
          "Vel: 0.75 m/s".toList] emptyRecord =
      .ok ([], ⟨some ("25-01-01 12:00:00".toList), some 0, some (3 / 4)⟩) := by
  have hz : truthyQ (some 0) = false := by simp [truthyQ]
  rw [show emptyRecord = (⟨none, none, none⟩ : CurrentRecord) from rfl,
    process_buffer_cons_skip _ "n"
      (parse_line_ts ("25-01-01 12:00:00".toList) none none none
        ("25-01-01 12:00:00".toList) rfl)
      (Bool.false_and _),
    process_buffer_cons_skip _ "n"
      (parse_line_flow ("Flow 0.0 l/s".toList)
        (some ("25-01-01 12:00:00".toList)) none none
        (rfl : matchFlow (pyStrip ("Flow 0.0 l/s".toList)) =
          some ['0', '.', '0']) pyFloat_00)
      (Bool.false_and _),
    process_buffer_cons_skip _ "n"
      (parse_line_vel ("Vel: 0.75 m/s".toList)
        (some ("25-01-01 12:00:00".toList)) (some 0) none
        (rfl : matchVel (pyStrip ("Vel: 0.75 m/s".toList)) =
          some ['0', '.', '7', '5']) pyFloat_075)
      (by simp [recordComplete, hz]),
    process_buffer_nil]

/-- C4 (amended): an in-order well-formed timestamp/flow/velocity
sequence into an empty accumulator emits exactly one fully populated
record and resets the accumulator to empty, provided the parsed flow and
velocity values are nonzero (Python truthiness treats a stored `0.0` as
an absent field); the reset is unconditional on downstream success, since
`store_record` swallows sink errors internally. -/
theorem c4_nonzero_in_order_emits (now : String) (t f v s gf gv : List Char)
    (qf qv : ℚ)
    (ht : matchTimestamp (pyStrip t) = some s)
    (hf : matchFlow (pyStrip f) = some gf) (hqf : pyFloat gf = some qf)
    (hqf0 : qf ≠ 0)
    (hv : matchVel (pyStrip v) = some gv) (hqv : pyFloat gv = some qv)
    (hqv0 : qv ≠ 0) :
    process_buffer now [t, f, v] emptyRecord =
      .ok ([⟨now, some qf, some qv⟩], emptyRecord) := by
  have hs : s ≠ [] := matchTimestamp_some_ne_nil ht
  have hse : s.isEmpty = false := by
    cases s with
    | nil => exact absurd rfl hs
    | cons a l => rfl
  have hcomp : recordComplete ⟨some s, some qf, some qv⟩ = true := by
    simp [recordComplete, truthyTs, truthyQ, hse, hqf0, hqv0]
  rw [show emptyRecord = (⟨none, none, none⟩ : CurrentRecord) from rfl,
    process_buffer_cons_skip _ now (parse_line_ts t none none none s ht)
      (Bool.false_and _),
    process_buffer_cons_skip _ now
      (parse_line_flow f (some s) none none hf hqf) (Bool.false_and _),
    process_buffer_last_emit now
      (parse_line_vel v (some s) (some qf) none hv hqv) hcomp]
  rfl

/-- C4 witness: concrete in-order sequence with nonzero values. -/
theorem c4_witness :
    process_buffer "w"
        ["25-01-01 12:00:00".toList, "Flow 1.50 l/s".toList,
          "Vel: 0.75 m/s".toList] emptyRecord =
      .ok ([⟨"w", some (3 / 2), some (3 / 4)⟩], emptyRecord) :=
  c4_nonzero_in_order_emits "w" ("25-01-01 12:00:00".toList)
    ("Flow 1.50 l/s".toList) ("Vel: 0.75 m/s".toList)
    ("25-01-01 12:00:00".toList) ['1', '.', '5', '0'] ['0', '.', '7', '5']
    (3 / 2) (3 / 4) rfl rfl pyFloat_150 (by norm_num) rfl pyFloat_075
    (by norm_num)

/-- C5 counterexample: the order flow line, timestamp line, velocity line
— a permutation different from timestamp-flow-velocity — emits a record,
refuting "never emits" for out-of-order permutations. -/
theorem c5_claim_false :
    process_buffer "z"
        ["Flow 1.50 l/s".toList, "25-01-01 12:00:00".toList,
          "Vel: 0.75 m/s".toList] emptyRecord =
      .ok ([⟨"z", some (3 / 2), some (3 / 4)⟩], emptyRecord) := by
  have h1 : truthyQ (some (3 / 2 : ℚ)) = true := by
    simp only [truthyQ, decide_eq_true_eq]
    norm_num
  have h2 : truthyQ (some (3 / 4 : ℚ)) = true := by
    simp only [truthyQ, decide_eq_true_eq]
    norm_num
  have hcomp : recordComplete
      ⟨some ("25-01-01 12:00:00".toList), some (3 / 2), some (3 / 4)⟩ =
      true := by
    unfold recordComplete
    dsimp only
    rw [show truthyTs (some ("25-01-01 12:00:00".toList)) = true from rfl,
      h1, h2]
    rfl
  rw [show emptyRecord = (⟨none, none, none⟩ : CurrentRecord) from rfl,
    process_buffer_cons_skip _ "z"
      (parse_line_flow ("Flow 1.50 l/s".toList) none none none
        (rfl : matchFlow (pyStrip ("Flow 1.50 l/s".toList)) =
          some ['1', '.', '5', '0']) pyFloat_150)
      (Bool.false_and _),
    process_buffer_cons_skip _ "z"
      (parse_line_ts ("25-01-01 12:00:00".toList) none (some (3 / 2)) none
        ("25-01-01 12:00:00".toList) rfl)
      (Bool.false_and _),
    process_buffer_last_emit "z"
      (parse_line_vel ("Vel: 0.75 m/s".toList)
        (some ("25-01-01 12:00:00".toList)) (some (3 / 2)) none
        (rfl : matchVel (pyStrip ("Vel: 0.75 m/s".toList)) =
          some ['0', '.', '7', '5']) pyFloat_075)
      hcomp]
  rfl

/-- C5 (amended): emission is decided solely by the velocity line being
processed against an otherwise fully truthy accumulator: every
permutation in which the velocity line is not last never emits, and
omitting any one of the three lines never emits; the order
flow-timestamp-velocity does emit (see the counterexample). -/
theorem c5_velocity_last_decides (now : String) (t f v s gf gv : List Char)
    (qf qv : ℚ)
    (ht : matchTimestamp (pyStrip t) = some s)
    (hf : matchFlow (pyStrip f) = some gf) (hqf : pyFloat gf = some qf)
    (hv : matchVel (pyStrip v) = some gv) (hqv : pyFloat gv = some qv) :
    process_buffer now [t, v, f] emptyRecord =
      .ok ([], ⟨some s, some qf, some qv⟩) ∧
    process_buffer now [v, t, f] emptyRecord =
      .ok ([], ⟨some s, some qf, some qv⟩) ∧
    process_buffer now [v, f, t] emptyRecord =
      .ok ([], ⟨some s, some qf, some qv⟩) ∧
    process_buffer now [f, v, t] emptyRecord =
      .ok ([], ⟨some s, some qf, some qv⟩) ∧
    process_buffer now [t, f] emptyRecord =
      .ok ([], ⟨some s, some qf, none⟩) ∧
    process_buffer now [t, v] emptyRecord =
      .ok ([], ⟨some s, none, some qv⟩) ∧
    process_buffer now [f, v] emptyRecord =
      .ok ([], ⟨none, some qf, some qv⟩) := by
  have hcf : ∀ (a : Option (List Char)) (c : Option ℚ),
      (true && recordComplete ⟨a, none, c⟩) = false := by
    intro a c
    simp [recordComplete, truthyQ]
  have hct : ∀ b c : Option ℚ,
      (true && recordComplete ⟨none, b, c⟩) = false := by
    intro b c
    simp [recordComplete, truthyTs]
  refine ⟨?_, ?_, ?_, ?_, ?_, ?_, ?_⟩
  · rw [show emptyRecord = (⟨none, none, none⟩ : CurrentRecord) from rfl,
      process_buffer_cons_skip _ now (parse_line_ts t none none none s ht)
        (Bool.false_and _),
      process_buffer_cons_skip _ now
        (parse_line_vel v (some s) none none hv hqv) (hcf _ _),
      process_buffer_cons_skip _ now
        (parse_line_flow f (some s) none (some qv) hf hqf)
        (Bool.false_and _),
      process_buffer_nil]
  · rw [show emptyRecord = (⟨none, none, none⟩ : CurrentRecord) from rfl,
      process_buffer_cons_skip _ now
        (parse_line_vel v none none none hv hqv) (hcf _ _),
      process_buffer_cons_skip _ now
        (parse_line_ts t none none (some qv) s ht) (Bool.false_and _),
      process_buffer_cons_skip _ now
        (parse_line_flow f (some s) none (some qv) hf hqf)
        (Bool.false_and _),
      process_buffer_nil]
  · rw [show emptyRecord = (⟨none, none, none⟩ : CurrentRecord) from rfl,
      process_buffer_cons_skip _ now
        (parse_line_vel v none none none hv hqv) (hcf _ _),
      process_buffer_cons_skip _ now
        (parse_line_flow f none none (some qv) hf hqf) (Bool.false_and _),
      process_buffer_cons_skip _ now
        (parse_line_ts t none (some qf) (some qv) s ht) (Bool.false_and _),
      process_buffer_nil]
  · rw [show emptyRecord = (⟨none, none, none⟩ : CurrentRecord) from rfl,
      process_buffer_cons_skip _ now
        (parse_line_flow f none none none hf hqf) (Bool.false_and _),
      process_buffer_cons_skip _ now
        (parse_line_vel v none (some qf) none hv hqv) (hct _ _),
      process_buffer_cons_skip _ now
        (parse_line_ts t none (some qf) (some qv) s ht) (Bool.false_and _),
      process_buffer_nil]
  · rw [show emptyRecord = (⟨none, none, none⟩ : CurrentRecord) from rfl,
      process_buffer_cons_skip _ now (parse_line_ts t none none none s ht)
        (Bool.false_and _),
      process_buffer_cons_skip _ now
        (parse_line_flow f (some s) none none hf hqf) (Bool.false_and _),
      process_buffer_nil]
  · rw [show emptyRecord = (⟨none, none, none⟩ : CurrentRecord) from rfl,
      process_buffer_cons_skip _ now (parse_line_ts t none none none s ht)
        (Bool.false_and _),
      process_buffer_cons_skip _ now
        (parse_line_vel v (some s) none none hv hqv) (hcf _ _),
      process_buffer_nil]
  · rw [show emptyRecord = (⟨none, none, none⟩ : CurrentRecord) from rfl,
      process_buffer_cons_skip _ now
        (parse_line_flow f none none none hf hqf) (Bool.false_and _),
      process_buffer_cons_skip _ now
        (parse_line_vel v none (some qf) none hv hqv) (hct _ _),
      process_buffer_nil]

/-- C5 witness: concrete velocity-first sequence emits nothing. -/
theorem c5_witness :
    process_buffer "w"
        ["Vel: 0.75 m/s".toList, "Flow 1.50 l/s".toList,
          "25-01-01 12:00:00".toList] emptyRecord =
      .ok ([], ⟨some ("25-01-01 12:00:00".toList), some (3 / 2),
        some (3 / 4)⟩) :=
  (c5_velocity_last_decides "w" ("25-01-01 12:00:00".toList)
    ("Flow 1.50 l/s".toList) ("Vel: 0.75 m/s".toList)
    ("25-01-01 12:00:00".toList) ['1', '.', '5', '0'] ['0', '.', '7', '5']
    (3 / 2) (3 / 4) rfl rfl pyFloat_150 rfl pyFloat_075).2.2.1
